import Mathlib

/-!
Verification of the StarRocks vectorized tablet-scanner excerpt
(`be/src/exec/vectorized/tablet_scanner.cpp`) and of the thrift RPC helper
(`be/src/util/thrift_rpc_helper.cpp`) against their natural-language
specification.  Each C++ routine the claims touch is shallowly embedded as an
executable Lean definition; machine state (flags, counters, reader output) is
threaded explicitly.
-/

namespace StarRocks

/-- The `Status` values the excerpt produces: `OK`, end-of-file from the
reader, a cancellation, a wrapped internal error, and the thrift RPC error of
the helper.  Each non-OK status carries its message. -/
inductive Status where
  | ok : Status
  | endOfFile : String → Status
  | cancelled : String → Status
  | internalError : String → Status
  | thriftRpcError : String → Status
  deriving DecidableEq, Repr

/-- `Status::ok()`. -/
def Status.isOk : Status → Bool
  | Status.ok => true
  | _ => false

/-- The message part of `Status::to_string` (the text interpolated into the
wrapping messages below). -/
def Status.toMessage : Status → String
  | Status.ok => "OK"
  | Status.endOfFile m => m
  | Status.cancelled m => m
  | Status.internalError m => m
  | Status.thriftRpcError m => m

/-! ## Key-range encoding (`TabletScanner::_init_reader_params`, range loop) -/

/-- Sentinel value stored in an `OlapTuple` for a key range that begins at
negative infinity.  The scanner only ever compares against the constant, so
its concrete text is irrelevant; the storage headers (outside the excerpt)
define it as the string below. -/
def NEGATIVE_INFINITY : String := "-oo"

/-- `OlapScanRange`: one key range of the scan request — the inclusive flags
plus the string-encoded begin/end key tuples (`OlapTuple` values). -/
structure OlapScanRange where
  begin_include : Bool
  end_include : Bool
  begin_scan_range : List String
  end_scan_range : List String
  deriving DecidableEq, Repr

/-- The key-range fields of `TabletReaderParams` that the loop at
tablet_scanner.cpp:136-147 fills in: the two comparison tags and the start/end
key vectors. -/
structure RangeParams where
  range : String
  end_range : String
  start_key : List (List String)
  end_key : List (List String)
  deriving DecidableEq, Repr

/-- `TabletReaderParams` begins with empty `start_key`/`end_key` vectors; the
initial contents of the two tag strings play no role in any claim. -/
def initialRangeParams : RangeParams :=
  { range := "", end_range := "", start_key := [], end_key := [] }

/-- One iteration of `for (auto key_range : *key_ranges)` in
`TabletScanner::_init_reader_params` (tablet_scanner.cpp:137-147): a range
whose begin tuple is the one-element negative-infinity sentinel is skipped
(`continue`); any other range overwrites the comparison tags and appends its
begin/end tuples to the start/end key vectors. -/
def encodeKeyRangeStep (ps : RangeParams) (kr : OlapScanRange) : RangeParams :=
  if kr.begin_scan_range.length == 1 && kr.begin_scan_range.headD "" == NEGATIVE_INFINITY then
    ps
  else
    { range := if kr.begin_include then "ge" else "gt",
      end_range := if kr.end_include then "le" else "lt",
      start_key := ps.start_key ++ [kr.begin_scan_range],
      end_key := ps.end_key ++ [kr.end_scan_range] }

/-- The whole range loop of `_init_reader_params` over the supplied key
ranges. -/
def encodeKeyRanges (ps : RangeParams) (key_ranges : List OlapScanRange) : RangeParams :=
  key_ranges.foldl encodeKeyRangeStep ps

/-! ## Predicate splitting (`TabletScanner::_init_reader_params`, lines 124-134) -/

/-- Result of the predicate-splitting loop: `pushdown` models
`_params.predicates`, `residual` models `_predicates`
(`ConjunctivePredicates::add`), and `free_pool` models
`_predicate_free_pool`. -/
structure PredicateSplit (P : Type) where
  pushdown : List P
  residual : List P
  free_pool : List P
  deriving DecidableEq, Repr

/-- One iteration of `for (auto* p : preds)` (tablet_scanner.cpp:127-134):
every predicate is appended to the free pool; the pushdown oracle
(`parser.can_pushdown`) then decides whether it goes to the reader's pushdown
list or to the scanner's residual conjunction. -/
def splitStep {P : Type} (can_pushdown : P → Bool) (acc : PredicateSplit P) (p : P) :
    PredicateSplit P :=
  let acc := { acc with free_pool := acc.free_pool ++ [p] }
  if can_pushdown p then { acc with pushdown := acc.pushdown ++ [p] }
  else { acc with residual := acc.residual ++ [p] }

/-- The predicate-splitting loop of `_init_reader_params` over the predicates
produced by `get_column_predicates`. -/
def splitPredicates {P : Type} (can_pushdown : P → Bool) (preds : List P) : PredicateSplit P :=
  preds.foldl (splitStep can_pushdown) { pushdown := [], residual := [], free_pool := [] }

/-! ## Open (`TabletScanner::open`) -/

/-- The open-relevant state of a `TabletScanner`: the `_is_open` flag plus an
instrumentation count of how many times `_reader->open(_params)` has been
invoked (the only other effect of `TabletScanner::open`). -/
structure OpenState where
  is_open : Bool
  reader_open_calls : Nat
  deriving DecidableEq, Repr

/-- The message built by `strings::Substitute` at tablet_scanner.cpp:71-72. -/
def openErrorMessage (host tablet inner : String) : String :=
  "[" ++ host ++ "] fail to open tablet reader " ++ tablet ++ ": " ++ inner

/-- `TabletScanner::open` (tablet_scanner.cpp:64-78).  `reader_open_result` is
the status the underlying `_reader->open(_params)` call returns when invoked.
Note that `_is_open` is set to `true` before the reader is opened and is not
reset when the reader's open fails. -/
def openScanner (host tablet : String) (reader_open_result : Status) (s : OpenState) :
    Status × OpenState :=
  if s.is_open then (Status.ok, s)
  else
    let s' : OpenState := { is_open := true, reader_open_calls := s.reader_open_calls + 1 }
    if reader_open_result.isOk then (Status.ok, s')
    else
      (Status.internalError (openErrorMessage host tablet reader_open_result.toMessage), s')

/-! ## Chunks and the scan loop (`TabletScanner::get_chunk`) -/

/-- A columnar batch.  Rows are abstract (`α`); filtering by a row-selection
vector is the only chunk operation the scan loop performs, so the model keeps
the row list and nothing else. -/
structure Chunk (α : Type) where
  rows : List α
  deriving DecidableEq, Repr

/-- `Chunk::num_rows`. -/
def Chunk.num_rows {α : Type} (c : Chunk α) : Nat := c.rows.length

/-- `Chunk::filter(selection)`: keep exactly the rows the selection vector
marks.  The selection vector is given pointwise by `sel`. -/
def Chunk.filterRows {α : Type} (sel : α → Bool) (c : Chunk α) : Chunk α :=
  { rows := c.rows.filter sel }

/-- `ConjunctivePredicates::evaluate` (and likewise `eval_conjuncts`) selects a
row exactly when every predicate of the set accepts it. -/
def evalConjunction {α : Type} (ps : List (α → Bool)) (r : α) : Bool :=
  ps.all (fun p => p r)

/-- The filtering configuration of one scanner: the residual column predicates
(`_predicates`) and the scalar conjunct contexts (`_conjunct_ctxs`), both
modelled as per-row boolean tests. -/
structure ScanConfig (α : Type) where
  predicates : List (α → Bool)
  conjunct_ctxs : List (α → Bool)

/-- The filtering body of the scan loop (tablet_scanner.cpp:229-245): when the
residual predicate set is non-empty, filter by its conjunction; when the
conjunct list is non-empty, filter by its conjunction as well. -/
def applyFilters {α : Type} (cfg : ScanConfig α) (c : Chunk α) : Chunk α :=
  let c₁ := if cfg.predicates.isEmpty then c else c.filterRows (evalConjunction cfg.predicates)
  if cfg.conjunct_ctxs.isEmpty then c₁ else c₁.filterRows (evalConjunction cfg.conjunct_ctxs)

/-- One successful `_prj_iter->get_next` outcome: the chunk delivered together
with the amounts the read added to the reader's transient statistics
(`compressed_bytes_read` and `raw_rows_read`). -/
structure Pull (α : Type) where
  chunk : Chunk α
  bytes : Nat
  raw_rows : Nat
  deriving DecidableEq, Repr

/-- Total `compressed_bytes_read` contributed by a list of reads. -/
def sumBytes {α : Type} (l : List (Pull α)) : Nat := (l.map Pull.bytes).sum

/-- Total `raw_rows_read` contributed by a list of reads. -/
def sumRawRows {α : Type} (l : List (Pull α)) : Nat := (l.map Pull.raw_rows).sum

/-- The `do … while (chunk->num_rows() == 0)` loop of `TabletScanner::get_chunk`
(tablet_scanner.cpp:220-246), with the reader's transient stat accumulators
threaded through explicitly.  `term` is the non-OK status `get_next` returns
once `pulls` is exhausted (end-of-stream or an error); it is propagated upward
unchanged.  Returns the loop result, the reads still pending, and the reader's
transient byte/row accumulators. -/
def scanLoop {α : Type} (cfg : ScanConfig α) (term : Status) :
    List (Pull α) → Nat → Nat → Except Status (Chunk α) × List (Pull α) × Nat × Nat
  | [], rc, rr => (Except.error term, [], rc, rr)
  | p :: rest, rc, rr =>
    let c := applyFilters cfg p.chunk
    if c.num_rows = 0 then scanLoop cfg term rest (rc + p.bytes) (rr + p.raw_rows)
    else (Except.ok c, rest, rc + p.bytes, rr + p.raw_rows)

/-- The counter and lifecycle state of one `TabletScanner`, together with the
counters it writes: the reader's transient stats, the scanner-local cumulative
totals, the parent profile counters both counter paths update, the
process-wide scan metrics, and the close-path flags and resources. -/
structure ScannerState (α : Type) where
  pulls : List (Pull α)
  reader_compressed_bytes_read : Nat
  reader_raw_rows_read : Nat
  compressed_bytes_read : Nat
  raw_rows_read : Nat
  parent_read_compressed : Nat
  parent_raw_rows : Nat
  query_scan_bytes : Nat
  query_scan_rows : Nat
  has_update_counter : Bool
  is_closed : Bool
  prj_iter_closed : Bool
  reader_released : Bool
  predicate_free_pool : List Nat
  conjuncts_closed : Bool
  deriving DecidableEq, Repr

/-- `TabletScanner::_update_realtime_counter` (tablet_scanner.cpp:251-259): add
the reader's transient byte/row stats to the parent profile counters and to
the scanner-local cumulative totals, then reset the transients to zero. -/
def update_realtime_counter {α : Type} (s : ScannerState α) : ScannerState α :=
  { s with
    parent_read_compressed := s.parent_read_compressed + s.reader_compressed_bytes_read,
    compressed_bytes_read := s.compressed_bytes_read + s.reader_compressed_bytes_read,
    reader_compressed_bytes_read := 0,
    parent_raw_rows := s.parent_raw_rows + s.reader_raw_rows_read,
    raw_rows_read := s.raw_rows_read + s.reader_raw_rows_read,
    reader_raw_rows_read := 0 }

/-- `TabletScanner::get_chunk` (tablet_scanner.cpp:215-249): fail with a
cancellation status when the runtime state is cancelled, otherwise run the
scan loop and, on success, update the realtime counters. -/
def get_chunk {α : Type} (cancelled : Bool) (cfg : ScanConfig α) (term : Status)
    (s : ScannerState α) : Except Status (Chunk α) × ScannerState α :=
  if cancelled then (Except.error (Status.cancelled "canceled state"), s)
  else
    match scanLoop cfg term s.pulls s.reader_compressed_bytes_read s.reader_raw_rows_read with
    | (Except.ok c, rest, rc, rr) =>
      (Except.ok c,
        update_realtime_counter
          { s with pulls := rest, reader_compressed_bytes_read := rc,
                   reader_raw_rows_read := rr })
    | (Except.error st, rest, rc, rr) =>
      (Except.error st,
        { s with pulls := rest, reader_compressed_bytes_read := rc,
                 reader_raw_rows_read := rr })

/-- `TabletScanner::update_counter` (tablet_scanner.cpp:261-322), restricted to
the fields of the model.  It is a no-op after its one-shot flag is set.
Otherwise it first folds the leftover reader transients into the parent
counters and the local cumulative totals, then increments the process-wide
scan metrics by the local cumulative totals (not by the reader's stats), and
finally sets the flag. -/
def update_counter {α : Type} (s : ScannerState α) : ScannerState α :=
  if s.has_update_counter then s
  else
    let cb := s.compressed_bytes_read + s.reader_compressed_bytes_read
    let rw := s.raw_rows_read + s.reader_raw_rows_read
    { s with
      parent_read_compressed := s.parent_read_compressed + s.reader_compressed_bytes_read,
      compressed_bytes_read := cb,
      parent_raw_rows := s.parent_raw_rows + s.reader_raw_rows_read,
      raw_rows_read := rw,
      query_scan_bytes := s.query_scan_bytes + cb,
      query_scan_rows := s.query_scan_rows + rw,
      has_update_counter := true }

/-- `TabletScanner::close` (tablet_scanner.cpp:80-93): a no-op when already
closed; otherwise close the projection iterator, flush the counters, release
the reader, clear the predicate free pool, close the conjunct contexts, and
mark the scanner closed. -/
def closeScanner {α : Type} (s : ScannerState α) : Status × ScannerState α :=
  if s.is_closed then (Status.ok, s)
  else
    let s := { s with prj_iter_closed := true }
    let s := update_counter s
    let s := { s with reader_released := true, predicate_free_pool := [],
                      conjuncts_closed := true, is_closed := true }
    (Status.ok, s)

/-- A freshly initialized scanner over reader output `pulls` with predicate
pool `pool`: transient, cumulative and profile counters start at zero, the
lifecycle flags are unset; `gb`/`gr` are the process-wide scan metric values
already accumulated by other scanners. -/
def initialScanState {α : Type} (pulls : List (Pull α)) (pool : List Nat) (gb gr : Nat) :
    ScannerState α :=
  { pulls := pulls, reader_compressed_bytes_read := 0, reader_raw_rows_read := 0,
    compressed_bytes_read := 0, raw_rows_read := 0,
    parent_read_compressed := 0, parent_raw_rows := 0,
    query_scan_bytes := gb, query_scan_rows := gr,
    has_update_counter := false, is_closed := false,
    prj_iter_closed := false, reader_released := false,
    predicate_free_pool := pool, conjuncts_closed := false }

/-- Drive `get_chunk` (never cancelled) until it returns a non-OK status, for
at most `fuel` calls; the state after the non-OK call is the scan's final
state. -/
def driveScan {α : Type} (cfg : ScanConfig α) (term : Status) :
    Nat → ScannerState α → ScannerState α
  | 0, s => s
  | fuel + 1, s =>
    match get_chunk false cfg term s with
    | (Except.ok _, s') => driveScan cfg term fuel s'
    | (Except.error _, s') => s'

/-! ## Return columns (`_init_return_columns` and the column part of
`_init_reader_params`) -/

/-- One column of the tablet schema: its name and its key flag (the only
`TabletColumn` fields the excerpt reads). -/
structure TabletColumn where
  name : String
  is_key : Bool
  deriving DecidableEq, Repr

/-- The tablet schema: the ordered column list plus `num_key_columns`. -/
structure TabletSchema where
  columns : List TabletColumn
  num_key_columns : Nat
  deriving DecidableEq, Repr

/-- `TabletSchema::column(index)`.  Out-of-range access is undefined in the
C++; the claims only use in-range indices, so a default column stands in. -/
def TabletSchema.column (ts : TabletSchema) (i : Nat) : TabletColumn :=
  ts.columns.getD i { name := "", is_key := false }

/-- In a valid `TabletSchema` the key columns are exactly the first
`num_key_columns` columns; the scanner relies on this (its `DCHECK` that the
reader columns are sorted only holds for such schemas). -/
def schemaKeysFirst (ts : TabletSchema) : Bool :=
  decide (ts.num_key_columns ≤ ts.columns.length) &&
    (List.range ts.columns.length).all
      (fun i => (ts.column i).is_key == decide (i < ts.num_key_columns))

/-- `Tablet::field_index(name)`: the index of the column with the given name.
The C++ returns `-1` when absent; the model returns `none` and the caller's
`index < 0` test becomes a match on it. -/
def field_index (ts : TabletSchema) (s : String) : Option Nat :=
  ts.columns.findIdx? (fun c => c.name == s)

/-- The `SlotDescriptor` fields the excerpt reads. -/
structure SlotDescriptor where
  id : Nat
  col_name : String
  is_materialized : Bool
  deriving DecidableEq, Repr

/-- The slot-resolution loop of `TabletScanner::_init_return_columns`
(tablet_scanner.cpp:170-183): skip non-materialized slots, fail on the first
slot whose name has no column, otherwise collect the column index and the
slot (`_scanner_columns` and `_query_slots`, in slot order, before the
sort). -/
def resolveSlots (ts : TabletSchema) :
    List SlotDescriptor → Except String (List Nat × List SlotDescriptor)
  | [] => Except.ok ([], [])
  | slot :: rest =>
    if !slot.is_materialized then resolveSlots ts rest
    else
      match field_index ts slot.col_name with
      | none => Except.error ("invalid field name: " ++ slot.col_name)
      | some i =>
        match resolveSlots ts rest with
        | Except.error e => Except.error e
        | Except.ok (cols, qs) => Except.ok (i :: cols, slot :: qs)

/-- `TabletScanner::_init_return_columns` (tablet_scanner.cpp:169-191): resolve
the materialized slots, sort the column ids ascending (`std::sort`), and fail
when no slot was materialized. -/
def init_return_columns (ts : TabletSchema) (slots : List SlotDescriptor) :
    Except String (List Nat × List SlotDescriptor) :=
  match resolveSlots ts slots with
  | Except.error e => Except.error e
  | Except.ok (cols, qs) =>
    let sorted := List.insertionSort (· ≤ ·) cols
    if sorted.isEmpty then
      Except.error "failed to build storage scanner, no materialized slot!"
    else Except.ok (sorted, qs)

/-- The return-columns part of `TabletScanner::_init_reader_params`
(tablet_scanner.cpp:149-164): with aggregation skipped the reader columns are
the scanner columns; otherwise they are all key-column ids
(`0 … num_key_columns-1`) followed by the requested non-key column ids. -/
def init_reader_columns (ts : TabletSchema) (skip_aggregation : Bool)
    (scanner_columns : List Nat) : List Nat :=
  if skip_aggregation then scanner_columns
  else
    List.range ts.num_key_columns ++
      scanner_columns.filter (fun i => !(ts.column i).is_key)

/-! ## The thrift RPC helper (`ThriftRpcHelper::rpc`) -/

/-- Outcome of invoking the user callback on the client connection: it
returns normally, throws a thrift `TTransportException`, or throws some other
thrift `TException` (`TTransportException` derives from `TException`, so the
outer handler catches both). -/
inductive CallOutcome where
  | success : CallOutcome
  | transportExc : String → CallOutcome
  | otherExc : String → CallOutcome
  deriving DecidableEq, Repr

/-- The environment one `ThriftRpcHelper::rpc` call runs against: the status
of constructing the initial `ClientConnection`, the outcome of the first
`callback(client)` invocation, the status `client.reopen(timeout_ms)` returns
inside the transport handler, and the outcome of the retried
`callback(client)` invocation (the last two are consulted only when the flow
reaches them). -/
structure RpcEnv where
  connect_status : Status
  first_call : CallOutcome
  reopen_status : Status
  second_call : CallOutcome
  deriving DecidableEq, Repr

/-- The observable actions of one `rpc` run: how many times the callback was
invoked, how many `reopen` calls were made, and how many backoff sleeps were
performed. -/
structure RpcTrace where
  callback_invocations : Nat
  reopen_calls : Nat
  sleep_calls : Nat
  deriving DecidableEq, Repr

/-- The message of the terminal error built at thrift_rpc_helper.cpp:85-86. -/
def rpcErrorMessage (m : String) : String :=
  "call frontend service failed, reason=" ++ m

/-- `ThriftRpcHelper::rpc` (thrift_rpc_helper.cpp:63-94), with the C++
exception flow made explicit.  The inner `catch` handles only a
`TTransportException` thrown by the FIRST callback invocation; it reopens the
connection and, when the reopen succeeds, invokes the callback again.  A
failure of the reopen is returned as-is.  Any exception thrown by the retried
invocation — transport or not — and any non-transport `TException` from the
first invocation reach the outer handler, which sleeps for the backoff delay,
reopens once more to discard the connection, and returns `ThriftRpcError`. -/
def rpc (env : RpcEnv) : Status × RpcTrace :=
  if !env.connect_status.isOk then
    (env.connect_status, { callback_invocations := 0, reopen_calls := 0, sleep_calls := 0 })
  else
    match env.first_call with
    | CallOutcome.success =>
      (Status.ok, { callback_invocations := 1, reopen_calls := 0, sleep_calls := 0 })
    | CallOutcome.transportExc _ =>
      if !env.reopen_status.isOk then
        (env.reopen_status,
          { callback_invocations := 1, reopen_calls := 1, sleep_calls := 0 })
      else
        match env.second_call with
        | CallOutcome.success =>
          (Status.ok, { callback_invocations := 2, reopen_calls := 1, sleep_calls := 0 })
        | CallOutcome.transportExc m =>
          (Status.thriftRpcError (rpcErrorMessage m),
            { callback_invocations := 2, reopen_calls := 2, sleep_calls := 1 })
        | CallOutcome.otherExc m =>
          (Status.thriftRpcError (rpcErrorMessage m),
            { callback_invocations := 2, reopen_calls := 2, sleep_calls := 1 })
    | CallOutcome.otherExc m =>
      (Status.thriftRpcError (rpcErrorMessage m),
        { callback_invocations := 1, reopen_calls := 1, sleep_calls := 1 })

/-! ## Theorems -/

/-- Concrete key range for the claim-C2 analysis: lower bound the one-element
negative-infinity sentinel, upper bound the key tuple `["5"]`. -/
def negInfRange : OlapScanRange :=
  { begin_include := true, end_include := true,
    begin_scan_range := [NEGATIVE_INFINITY], end_scan_range := ["5"] }

/-- A concrete ordinary key range (bounded on both sides). -/
def ordinaryRange : OlapScanRange :=
  { begin_include := true, end_include := false,
    begin_scan_range := ["3"], end_scan_range := ["7"] }

/-- Claim C2 is false as stated: for a key range whose lower bound is the
negative-infinity sentinel and whose upper bound is the key tuple `["5"]`,
the upper bound is NOT encoded into the reader parameters — the loop skips
the whole range and both key vectors stay empty. -/
theorem c2_counterexample :
    (encodeKeyRanges initialRangeParams [negInfRange]).end_key = [] ∧
    ¬ ["5"] ∈ (encodeKeyRanges initialRangeParams [negInfRange]).end_key ∧
    (encodeKeyRanges initialRangeParams [negInfRange]).start_key = [] := by
  refine ⟨rfl, ?_, rfl⟩
  intro h
  simp [encodeKeyRanges, encodeKeyRangeStep, initialRangeParams, negInfRange,
    NEGATIVE_INFINITY] at h

/-- Claim C2 (amended): a key range whose begin tuple is exactly the
one-element negative-infinity sentinel is skipped entirely by the range loop —
neither its lower nor its upper bound is encoded: the loop step is the
identity on the reader parameters, and dropping the range from the request
leaves the encoded parameters unchanged. -/
theorem c2_neg_infinity_skipped (ps : RangeParams) (rs₁ rs₂ : List OlapScanRange)
    (kr : OlapScanRange) (h : kr.begin_scan_range = [NEGATIVE_INFINITY]) :
    encodeKeyRangeStep ps kr = ps ∧
    encodeKeyRanges ps (rs₁ ++ kr :: rs₂) = encodeKeyRanges ps (rs₁ ++ rs₂) := by
  have hstep : ∀ q : RangeParams, encodeKeyRangeStep q kr = q := by
    intro q
    simp [encodeKeyRangeStep, h]
  refine ⟨hstep ps, ?_⟩
  simp [encodeKeyRanges, List.foldl_append, List.foldl_cons, hstep]

/-- The amended claim C2 at a concrete input: a sentinel range following an
ordinary range contributes nothing to the reader parameters. -/
theorem c2_neg_infinity_skipped_witness :
    encodeKeyRangeStep initialRangeParams negInfRange = initialRangeParams ∧
    encodeKeyRanges initialRangeParams ([ordinaryRange] ++ negInfRange :: []) =
      encodeKeyRanges initialRangeParams ([ordinaryRange] ++ []) :=
  c2_neg_infinity_skipped initialRangeParams [ordinaryRange] [] negInfRange rfl

/-- Claim C10: the negative-infinity skip applies only to a one-element begin
tuple — a key range whose begin tuple has two or more elements is encoded into
the start/end key vectors (even when its first element is the sentinel). -/
theorem c10_longer_range_encoded (ps : RangeParams) (kr : OlapScanRange)
    (h : 2 ≤ kr.begin_scan_range.length) :
    encodeKeyRangeStep ps kr =
      { range := if kr.begin_include then "ge" else "gt",
        end_range := if kr.end_include then "le" else "lt",
        start_key := ps.start_key ++ [kr.begin_scan_range],
        end_key := ps.end_key ++ [kr.end_scan_range] } := by
  have hb : (kr.begin_scan_range.length == 1) = false := by
    simp only [beq_eq_false_iff_ne, ne_eq]
    omega
  simp [encodeKeyRangeStep, hb]

/-- The claim-C10 theorem at a concrete input whose begin tuple starts with
the sentinel but has a second element: the range is encoded. -/
theorem c10_longer_range_encoded_witness :
    encodeKeyRangeStep initialRangeParams
      { begin_include := true, end_include := true,
        begin_scan_range := [NEGATIVE_INFINITY, "5"], end_scan_range := ["9", "9"] } =
      { range := "ge", end_range := "le",
        start_key := [[NEGATIVE_INFINITY, "5"]], end_key := [["9", "9"]] } :=
  c10_longer_range_encoded initialRangeParams
    { begin_include := true, end_include := true,
      begin_scan_range := [NEGATIVE_INFINITY, "5"], end_scan_range := ["9", "9"] }
    (by decide)

/-- The split loop, from an arbitrary accumulator: each output component is
the accumulator's extended by the corresponding filtered sub-list. -/
theorem splitPredicates_foldl {P : Type} (can : P → Bool) (preds : List P)
    (acc : PredicateSplit P) :
    preds.foldl (splitStep can) acc =
      { pushdown := acc.pushdown ++ preds.filter can,
        residual := acc.residual ++ preds.filter (fun p => !can p),
        free_pool := acc.free_pool ++ preds } := by
  induction preds generalizing acc with
  | nil => simp
  | cons p rest ih =>
    cases h : can p <;>
      simp [splitStep, h, ih, List.filter_cons]

/-- Claim C5: the pushdown oracle partitions the supplied predicates — the
pushdown list is exactly the predicates the oracle accepts, the residual list
exactly those it rejects, the two are disjoint, together they are a
permutation of the supplied list (no duplication, no loss), and every
predicate lands in the owning free pool. -/
theorem c5_predicate_partition {P : Type} (can_pushdown : P → Bool) (preds : List P) :
    (splitPredicates can_pushdown preds).pushdown = preds.filter can_pushdown ∧
    (splitPredicates can_pushdown preds).residual =
      preds.filter (fun p => !can_pushdown p) ∧
    List.Disjoint (splitPredicates can_pushdown preds).pushdown
      (splitPredicates can_pushdown preds).residual ∧
    ((splitPredicates can_pushdown preds).pushdown ++
      (splitPredicates can_pushdown preds).residual).Perm preds ∧
    (splitPredicates can_pushdown preds).free_pool = preds := by
  have h := splitPredicates_foldl can_pushdown preds
    { pushdown := [], residual := [], free_pool := [] }
  rw [splitPredicates, h]
  refine ⟨by simp, by simp, ?_, ?_, by simp⟩
  · intro p hp hr
    simp only [List.nil_append, List.mem_filter] at hp hr
    rw [hp.2] at hr
    simp at hr
  · simpa using List.filter_append_perm can_pushdown preds

/-- Claim C3 is false as stated: at the concrete input below (scanner not yet
open, reader open failing with an internal error) the error is wrapped, but
the `_is_open` flag is set — not left unset — after the failed open. -/
theorem c3_counterexample :
    ((openScanner "host1" "tablet1" (Status.internalError "disk error")
        { is_open := false, reader_open_calls := 0 }).2.is_open = true) ∧
    (openScanner "host1" "tablet1" (Status.internalError "disk error")
        { is_open := false, reader_open_calls := 0 }).1 =
      Status.internalError (openErrorMessage "host1" "tablet1" "disk error") := by
  exact ⟨rfl, rfl⟩

/-- Claim C3 (amended): `open` on an already-open scanner returns success and
changes nothing; when the reader's open fails, the error is wrapped with
host/tablet context, but the `_is_open` flag has already been set and remains
set, so a retried `open` returns success immediately without invoking the
reader again. -/
theorem c3_open_idempotent_flag_set (host tablet : String) (r u : Status)
    (s t : OpenState) (hs : s.is_open = true) (ht : t.is_open = false)
    (hr : r.isOk = false) :
    openScanner host tablet r s = (Status.ok, s) ∧
    openScanner host tablet r t =
      (Status.internalError (openErrorMessage host tablet r.toMessage),
        { is_open := true, reader_open_calls := t.reader_open_calls + 1 }) ∧
    openScanner host tablet u (openScanner host tablet r t).2 =
      (Status.ok, (openScanner host tablet r t).2) := by
  refine ⟨by simp [openScanner, hs], by simp [openScanner, ht, hr], ?_⟩
  simp [openScanner, ht, hr]

/-- The amended claim C3 at concrete inputs: already-open no-op, failed open
leaving the flag set, and the success of the retried open. -/
theorem c3_open_idempotent_flag_set_witness :
    openScanner "host1" "tablet1" (Status.internalError "disk error")
        { is_open := true, reader_open_calls := 1 } =
      (Status.ok, { is_open := true, reader_open_calls := 1 }) ∧
    openScanner "host1" "tablet1" (Status.internalError "disk error")
        { is_open := false, reader_open_calls := 0 } =
      (Status.internalError (openErrorMessage "host1" "tablet1" "disk error"),
        { is_open := true, reader_open_calls := 0 + 1 }) ∧
    openScanner "host1" "tablet1" Status.ok
        (openScanner "host1" "tablet1" (Status.internalError "disk error")
          { is_open := false, reader_open_calls := 0 }).2 =
      (Status.ok,
        (openScanner "host1" "tablet1" (Status.internalError "disk error")
          { is_open := false, reader_open_calls := 0 }).2) :=
  c3_open_idempotent_flag_set "host1" "tablet1" (Status.internalError "disk error")
    Status.ok { is_open := true, reader_open_calls := 1 }
    { is_open := false, reader_open_calls := 0 } rfl rfl rfl

/-- Claim C8: when the runtime state is already cancelled at entry, get_chunk
returns the cancellation status immediately, without pulling the output stage
and without any other change to the scanner state (the state is returned
verbatim). -/
theorem c8_cancelled_no_read {α : Type} (cfg : ScanConfig α) (term : Status)
    (s : ScannerState α) :
    get_chunk true cfg term s = (Except.error (Status.cancelled "canceled state"), s) :=
  rfl

/-- Claim C6: close is idempotent — the first close returns success, a second
close returns success and leaves the state (hence every externally observable
counter) exactly as the first close left it; the one-shot counter flush is
itself idempotent under its guard flag, and the realtime update path does not
touch that flag. -/
theorem c6_close_idempotent {α : Type} (s : ScannerState α) :
    (closeScanner s).1 = Status.ok ∧
    closeScanner (closeScanner s).2 = (Status.ok, (closeScanner s).2) ∧
    update_counter (update_counter s) = update_counter s ∧
    (update_realtime_counter s).has_update_counter = s.has_update_counter := by
  have hu : ∀ t : ScannerState α, update_counter (update_counter t) = update_counter t := by
    intro t
    by_cases h : t.has_update_counter <;> simp [update_counter, h]
  refine ⟨?_, ?_, hu s, rfl⟩
  · by_cases h : s.is_closed <;> simp [closeScanner, h]
  · by_cases h : s.is_closed
    · simp [closeScanner, h]
    · by_cases h2 : s.has_update_counter <;>
        simp [closeScanner, update_counter, h, h2]

/-- Claim C9: the RPC helper performs exactly one bounded retry — the callback
runs at most twice; a transport failure of the first invocation triggers one
reconnect and, when the reconnect succeeds, one re-invocation; a failed
reconnect returns the reconnect error; a non-transport failure of the first
invocation, and any failure of the retried invocation, lead to one backoff
sleep, one discarding reopen, and a terminal `ThriftRpcError` with no further
retries. -/
theorem c9_rpc_single_retry (env : RpcEnv) :
    (rpc env).2.callback_invocations ≤ 2 ∧
    (∀ m, env.connect_status.isOk = true →
      env.first_call = CallOutcome.transportExc m → env.reopen_status.isOk = true →
        (rpc env).2.callback_invocations = 2 ∧ 1 ≤ (rpc env).2.reopen_calls) ∧
    (∀ m, env.connect_status.isOk = true →
      env.first_call = CallOutcome.transportExc m → env.reopen_status.isOk = false →
        rpc env = (env.reopen_status,
          { callback_invocations := 1, reopen_calls := 1, sleep_calls := 0 })) ∧
    (∀ m, env.connect_status.isOk = true → env.first_call = CallOutcome.otherExc m →
        rpc env = (Status.thriftRpcError (rpcErrorMessage m),
          { callback_invocations := 1, reopen_calls := 1, sleep_calls := 1 })) ∧
    (∀ m m', env.connect_status.isOk = true →
      env.first_call = CallOutcome.transportExc m → env.reopen_status.isOk = true →
      (env.second_call = CallOutcome.transportExc m' ∨
        env.second_call = CallOutcome.otherExc m') →
        rpc env = (Status.thriftRpcError (rpcErrorMessage m'),
          { callback_invocations := 2, reopen_calls := 2, sleep_calls := 1 })) := by
  obtain ⟨cs, fc, rs, sc⟩ := env
  refine ⟨?_, ?_, ?_, ?_, ?_⟩
  · by_cases h1 : cs.isOk <;> cases fc <;> by_cases h3 : rs.isOk <;>
      cases sc <;> simp_all [rpc]
  · intro m h1 h2 h3
    subst h2
    cases sc <;> simp_all [rpc]
  · intro m h1 h2 h3
    subst h2
    simp_all [rpc]
  · intro m h1 h2
    subst h2
    simp_all [rpc]
  · intro m m' h1 h2 h3 h4
    subst h2
    rcases h4 with h4 | h4 <;> subst h4 <;> simp_all [rpc]

theorem sumBytes_nil {α : Type} : sumBytes ([] : List (Pull α)) = 0 := rfl

theorem sumRawRows_nil {α : Type} : sumRawRows ([] : List (Pull α)) = 0 := rfl

theorem sumBytes_cons {α : Type} (p : Pull α) (l : List (Pull α)) :
    sumBytes (p :: l) = p.bytes + sumBytes l := by
  simp [sumBytes]

theorem sumRawRows_cons {α : Type} (p : Pull α) (l : List (Pull α)) :
    sumRawRows (p :: l) = p.raw_rows + sumRawRows l := by
  simp [sumRawRows]

theorem sumBytes_append {α : Type} (l₁ l₂ : List (Pull α)) :
    sumBytes (l₁ ++ l₂) = sumBytes l₁ + sumBytes l₂ := by
  simp [sumBytes]

theorem sumRawRows_append {α : Type} (l₁ l₂ : List (Pull α)) :
    sumRawRows (l₁ ++ l₂) = sumRawRows l₁ + sumRawRows l₂ := by
  simp [sumRawRows]

/-- Behavior of the scan loop: a first block of reads (`consumed`) is pulled,
and the transient accumulators grow by exactly the consumed reads'
statistics; exhaustion propagates `term` with nothing pending, while success
returns a non-empty filtered chunk after consuming at least one read. -/
theorem scanLoop_spec {α : Type} (cfg : ScanConfig α) (term : Status)
    (pulls : List (Pull α)) : ∀ (rc rr : Nat),
    ∃ consumed res rest rc' rr',
      scanLoop cfg term pulls rc rr = (res, rest, rc', rr') ∧
      pulls = consumed ++ rest ∧
      rc' = rc + sumBytes consumed ∧
      rr' = rr + sumRawRows consumed ∧
      ((res = Except.error term ∧ rest = []) ∨
        (∃ c, res = Except.ok c ∧ 0 < c.num_rows ∧ consumed ≠ [])) := by
  induction pulls with
  | nil =>
    intro rc rr
    exact ⟨[], Except.error term, [], rc, rr, rfl, rfl, by simp [sumBytes_nil],
      by simp [sumRawRows_nil], Or.inl ⟨rfl, rfl⟩⟩
  | cons p rest ih =>
    intro rc rr
    by_cases h : (applyFilters cfg p.chunk).num_rows = 0
    · obtain ⟨consumed, res, rest', rc', rr', heq, hsplit, hrc, hrr, hres⟩ :=
        ih (rc + p.bytes) (rr + p.raw_rows)
      refine ⟨p :: consumed, res, rest', rc', rr', ?_, ?_, ?_, ?_, ?_⟩
      · simpa [scanLoop, h] using heq
      · simp [hsplit]
      · rw [hrc, sumBytes_cons]; omega
      · rw [hrr, sumRawRows_cons]; omega
      · rcases hres with ⟨h1, h2⟩ | ⟨c, h1, h2, h3⟩
        · exact Or.inl ⟨h1, h2⟩
        · exact Or.inr ⟨c, h1, h2, by simp⟩
    · refine ⟨[p], Except.ok (applyFilters cfg p.chunk), rest, rc + p.bytes,
        rr + p.raw_rows, ?_, rfl, ?_, ?_, ?_⟩
      · simp [scanLoop, h]
      · simp [sumBytes_cons, sumBytes_nil]
      · simp [sumRawRows_cons, sumRawRows_nil]
      · exact Or.inr ⟨applyFilters cfg p.chunk, rfl, Nat.pos_of_ne_zero h, by simp⟩

/-- A successful get_chunk, analysed: the returned chunk is non-empty, at
least one read was consumed, the realtime counter update added the reader's
transient statistics (their old value plus the consumed reads' contributions)
to the local cumulative totals and to the parent profile counters, the
transients were reset to zero, and no other counter or flag changed. -/
theorem get_chunk_ok {α : Type} (cfg : ScanConfig α) (term : Status)
    (s : ScannerState α) (c : Chunk α) (s' : ScannerState α)
    (h : get_chunk false cfg term s = (Except.ok c, s')) :
    0 < c.num_rows ∧
    ∃ consumed, consumed ≠ [] ∧ s.pulls = consumed ++ s'.pulls ∧
      s'.reader_compressed_bytes_read = 0 ∧
      s'.reader_raw_rows_read = 0 ∧
      s'.compressed_bytes_read =
        s.compressed_bytes_read + (s.reader_compressed_bytes_read + sumBytes consumed) ∧
      s'.parent_read_compressed =
        s.parent_read_compressed + (s.reader_compressed_bytes_read + sumBytes consumed) ∧
      s'.raw_rows_read =
        s.raw_rows_read + (s.reader_raw_rows_read + sumRawRows consumed) ∧
      s'.parent_raw_rows =
        s.parent_raw_rows + (s.reader_raw_rows_read + sumRawRows consumed) ∧
      s'.query_scan_bytes = s.query_scan_bytes ∧
      s'.query_scan_rows = s.query_scan_rows ∧
      s'.has_update_counter = s.has_update_counter ∧
      s'.is_closed = s.is_closed := by
  obtain ⟨consumed, res, rest, rc', rr', heq, hsplit, hrc, hrr, hres⟩ :=
    scanLoop_spec cfg term s.pulls s.reader_compressed_bytes_read s.reader_raw_rows_read
  rw [get_chunk, if_neg (by simp), heq] at h
  rcases hres with ⟨h1, _⟩ | ⟨c', h1, h2, h3⟩
  · subst h1; simp at h
  · subst h1
    simp only [Prod.mk.injEq, Except.ok.injEq] at h
    obtain ⟨hc, hs'⟩ := h
    subst hc
    refine ⟨h2, consumed, h3, ?_, ?_, ?_, ?_, ?_, ?_, ?_, ?_, ?_, ?_, ?_⟩ <;>
      rw [← hs'] <;>
      simp [update_realtime_counter, hrc, hrr, hsplit]

/-- An unsuccessful get_chunk, analysed: the terminal status is propagated
unchanged, all remaining reads were consumed into the reader's transients,
and no cumulative counter or flag changed. -/
theorem get_chunk_error {α : Type} (cfg : ScanConfig α) (term : Status)
    (s : ScannerState α) (st : Status) (s' : ScannerState α)
    (h : get_chunk false cfg term s = (Except.error st, s')) :
    st = term ∧ s'.pulls = [] ∧
    s'.reader_compressed_bytes_read =
      s.reader_compressed_bytes_read + sumBytes s.pulls ∧
    s'.reader_raw_rows_read = s.reader_raw_rows_read + sumRawRows s.pulls ∧
    s'.compressed_bytes_read = s.compressed_bytes_read ∧
    s'.raw_rows_read = s.raw_rows_read ∧
    s'.query_scan_bytes = s.query_scan_bytes ∧
    s'.query_scan_rows = s.query_scan_rows ∧
    s'.has_update_counter = s.has_update_counter ∧
    s'.is_closed = s.is_closed := by
  obtain ⟨consumed, res, rest, rc', rr', heq, hsplit, hrc, hrr, hres⟩ :=
    scanLoop_spec cfg term s.pulls s.reader_compressed_bytes_read s.reader_raw_rows_read
  rw [get_chunk, if_neg (by simp), heq] at h
  rcases hres with ⟨h1, h2⟩ | ⟨c', h1, _, _⟩
  · subst h1
    subst h2
    simp only [Prod.mk.injEq, Except.error.injEq] at h
    obtain ⟨hst, hs'⟩ := h
    have hcons : consumed = s.pulls := by simpa using hsplit.symm
    subst hcons
    refine ⟨hst.symm, ?_, ?_, ?_, ?_, ?_, ?_, ?_, ?_, ?_⟩ <;>
      rw [← hs'] <;> simp [hrc, hrr]
  · subst h1; simp at h

/-- Claim C1: get_chunk yields only errors/end-of-stream or chunks with at
least one row; a chunk whose rows are all filtered out is discarded, and the
loop pulls the next read instead of returning it. -/
theorem c1_get_chunk_nonempty {α : Type} (cancelled : Bool) (cfg : ScanConfig α)
    (term : Status) (s : ScannerState α) (c : Chunk α) (s' : ScannerState α)
    (p : Pull α) (rest : List (Pull α)) (rc rr : Nat)
    (h : get_chunk cancelled cfg term s = (Except.ok c, s'))
    (hz : (applyFilters cfg p.chunk).num_rows = 0) :
    1 ≤ c.num_rows ∧
    scanLoop cfg term (p :: rest) rc rr =
      scanLoop cfg term rest (rc + p.bytes) (rr + p.raw_rows) := by
  cases cancelled with
  | true => rw [get_chunk] at h; simp at h
  | false => exact ⟨(get_chunk_ok cfg term s c s' h).1, by simp [scanLoop, hz]⟩

/-- Concrete scan scenario: the reader first hands back an empty chunk (3
compressed bytes, 0 raw rows), then a one-row chunk (10 bytes, 1 row). -/
def samplePulls : List (Pull Nat) :=
  [{ chunk := { rows := [] }, bytes := 3, raw_rows := 0 },
   { chunk := { rows := [7] }, bytes := 10, raw_rows := 1 }]

/-- A scanner with no residual predicates and no conjuncts. -/
def sampleConfig : ScanConfig Nat := { predicates := [], conjunct_ctxs := [] }

/-- The fresh scanner state over `samplePulls`. -/
def sampleState : ScannerState Nat := initialScanState samplePulls [] 0 0

/-- The state `get_chunk` leaves behind on `sampleState`: both reads consumed,
their 13 bytes and 1 raw row moved into the cumulative totals and the parent
counters, transients reset. -/
def sampleStateAfter : ScannerState Nat :=
  { pulls := [], reader_compressed_bytes_read := 0, reader_raw_rows_read := 0,
    compressed_bytes_read := 13, raw_rows_read := 1,
    parent_read_compressed := 13, parent_raw_rows := 1,
    query_scan_bytes := 0, query_scan_rows := 0,
    has_update_counter := false, is_closed := false,
    prj_iter_closed := false, reader_released := false,
    predicate_free_pool := [], conjuncts_closed := false }

/-- Claim C1 at the concrete scenario: the returned chunk has a row, and the
loop step on the empty-filtered first read just advances to the next read. -/
theorem c1_get_chunk_nonempty_witness :
    1 ≤ (Chunk.mk [7] : Chunk Nat).num_rows ∧
    scanLoop sampleConfig (Status.endOfFile "eof")
        ({ chunk := { rows := [] }, bytes := 3, raw_rows := 0 } :: []) 0 0 =
      scanLoop sampleConfig (Status.endOfFile "eof") [] (0 + 3) (0 + 0) :=
  c1_get_chunk_nonempty false sampleConfig (Status.endOfFile "eof") sampleState
    (Chunk.mk [7]) sampleStateAfter
    { chunk := { rows := [] }, bytes := 3, raw_rows := 0 } [] 0 0 rfl rfl

/-- Driving the scan to exhaustion (enough fuel for every read) consumes all
reads; the bytes and raw rows ever reported by the reader end up split
between the local cumulative totals and the leftover transients, while the
process-wide metrics, the one-shot flag and the closed flag are untouched. -/
theorem driveScan_exhausts {α : Type} (cfg : ScanConfig α) (term : Status) :
    ∀ (fuel : Nat) (s : ScannerState α), s.pulls.length < fuel →
      (driveScan cfg term fuel s).pulls = [] ∧
      (driveScan cfg term fuel s).compressed_bytes_read +
          (driveScan cfg term fuel s).reader_compressed_bytes_read =
        s.compressed_bytes_read + s.reader_compressed_bytes_read + sumBytes s.pulls ∧
      (driveScan cfg term fuel s).raw_rows_read +
          (driveScan cfg term fuel s).reader_raw_rows_read =
        s.raw_rows_read + s.reader_raw_rows_read + sumRawRows s.pulls ∧
      (driveScan cfg term fuel s).query_scan_bytes = s.query_scan_bytes ∧
      (driveScan cfg term fuel s).query_scan_rows = s.query_scan_rows ∧
      (driveScan cfg term fuel s).has_update_counter = s.has_update_counter ∧
      (driveScan cfg term fuel s).is_closed = s.is_closed := by
  intro fuel
  induction fuel with
  | zero => intro s h; exact absurd h (Nat.not_lt_zero _)
  | succ n ih =>
    intro s h
    rcases hgc : get_chunk false cfg term s with ⟨res, s₁⟩
    cases res with
    | error st =>
      have hd : driveScan cfg term (n + 1) s = s₁ := by
        simp [driveScan, hgc]
      obtain ⟨_, h2, h3, h4, h5, h6, h7, h8, h9, h10⟩ :=
        get_chunk_error cfg term s st s₁ hgc
      rw [hd]
      exact ⟨h2, by omega, by omega, h7, h8, h9, h10⟩
    | ok c =>
      have hd : driveScan cfg term (n + 1) s = driveScan cfg term n s₁ := by
        simp [driveScan, hgc]
      obtain ⟨-, consumed, hne, hsplit, e1, e2, e3, -, e5, -, e7, e8, e9, e10⟩ :=
        get_chunk_ok cfg term s c s₁ hgc
      have hsum : sumBytes s.pulls = sumBytes consumed + sumBytes s₁.pulls := by
        rw [hsplit, sumBytes_append]
      have hsumr : sumRawRows s.pulls = sumRawRows consumed + sumRawRows s₁.pulls := by
        rw [hsplit, sumRawRows_append]
      have hlen : s₁.pulls.length < n := by
        have hl : s.pulls.length = consumed.length + s₁.pulls.length := by
          rw [hsplit, List.length_append]
        have hc1 : 1 ≤ consumed.length := by
          cases consumed with
          | nil => exact absurd rfl hne
          | cons a l => simp
        omega
      obtain ⟨g1, g2, g3, g4, g5, g6, g7⟩ := ih s₁ hlen
      rw [hd]
      exact ⟨g1, by omega, by omega, by rw [g4, e7], by rw [g5, e8],
        by rw [g6, e9], by rw [g7, e10]⟩

/-- Claim C7: after every successful get_chunk the realtime counters
(compressed bytes, raw rows) are added to the local cumulative totals — and,
by `COUNTER_UPDATE`, to the parent profile counters — and the reader's
transients are reset to zero; and a whole scan followed by close increments
the process-wide scan metrics by exactly the bytes/rows the reader ever
reported: nothing is double counted across the resets. -/
theorem c7_counter_accounting {α : Type} (cfg : ScanConfig α) (term : Status)
    (s : ScannerState α) (c : Chunk α) (s' : ScannerState α)
    (h : get_chunk false cfg term s = (Except.ok c, s'))
    (cfg₂ : ScanConfig α) (term₂ : Status) (pulls₀ : List (Pull α))
    (pool₀ : List Nat) (gb gr : Nat) :
    (s'.reader_compressed_bytes_read = 0 ∧ s'.reader_raw_rows_read = 0 ∧
      ∃ consumed, s.pulls = consumed ++ s'.pulls ∧
        s'.compressed_bytes_read =
          s.compressed_bytes_read + (s.reader_compressed_bytes_read + sumBytes consumed) ∧
        s'.parent_read_compressed =
          s.parent_read_compressed + (s.reader_compressed_bytes_read + sumBytes consumed) ∧
        s'.raw_rows_read =
          s.raw_rows_read + (s.reader_raw_rows_read + sumRawRows consumed) ∧
        s'.parent_raw_rows =
          s.parent_raw_rows + (s.reader_raw_rows_read + sumRawRows consumed)) ∧
    ((closeScanner (driveScan cfg₂ term₂ (pulls₀.length + 1)
          (initialScanState pulls₀ pool₀ gb gr))).2.query_scan_bytes =
        gb + sumBytes pulls₀ ∧
      (closeScanner (driveScan cfg₂ term₂ (pulls₀.length + 1)
          (initialScanState pulls₀ pool₀ gb gr))).2.query_scan_rows =
        gr + sumRawRows pulls₀) := by
  constructor
  · obtain ⟨-, consumed, -, hsplit, e1, e2, e3, e4, e5, e6, -, -, -, -⟩ :=
      get_chunk_ok cfg term s c s' h
    exact ⟨e1, e2, consumed, hsplit, e3, e4, e5, e6⟩
  · have hlen : (initialScanState pulls₀ pool₀ gb gr : ScannerState α).pulls.length <
        pulls₀.length + 1 := by
      simp [initialScanState]
    obtain ⟨g1, g2, g3, g4, g5, g6, g7⟩ :=
      driveScan_exhausts cfg₂ term₂ (pulls₀.length + 1)
        (initialScanState pulls₀ pool₀ gb gr) hlen
    set sf := driveScan cfg₂ term₂ (pulls₀.length + 1)
      (initialScanState pulls₀ pool₀ gb gr) with hsf
    simp only [initialScanState] at g2 g3 g4 g5 g6 g7
    have hval : closeScanner sf = (Status.ok,
        { (update_counter { sf with prj_iter_closed := true }) with
          reader_released := true, predicate_free_pool := [],
          conjuncts_closed := true, is_closed := true }) := by
      rw [closeScanner, if_neg (by rw [g7]; simp)]
    rw [hval]
    have hbu : ({ sf with prj_iter_closed := true } : ScannerState α).has_update_counter =
        false := g6
    rw [update_counter, if_neg (by rw [hbu]; simp)]
    simp only
    constructor <;> omega

/-- Claim C7 at the concrete scenario: one successful get_chunk over
`samplePulls`, and a full drive-then-close starting from process-wide metric
values of 5 bytes and 2 rows. -/
theorem c7_counter_accounting_witness :
    (sampleStateAfter.reader_compressed_bytes_read = 0 ∧
      sampleStateAfter.reader_raw_rows_read = 0 ∧
      ∃ consumed, sampleState.pulls = consumed ++ sampleStateAfter.pulls ∧
        sampleStateAfter.compressed_bytes_read =
          sampleState.compressed_bytes_read +
            (sampleState.reader_compressed_bytes_read + sumBytes consumed) ∧
        sampleStateAfter.parent_read_compressed =
          sampleState.parent_read_compressed +
            (sampleState.reader_compressed_bytes_read + sumBytes consumed) ∧
        sampleStateAfter.raw_rows_read =
          sampleState.raw_rows_read +
            (sampleState.reader_raw_rows_read + sumRawRows consumed) ∧
        sampleStateAfter.parent_raw_rows =
          sampleState.parent_raw_rows +
            (sampleState.reader_raw_rows_read + sumRawRows consumed)) ∧
    ((closeScanner (driveScan sampleConfig (Status.endOfFile "eof")
          (samplePulls.length + 1)
          (initialScanState samplePulls [] 5 2))).2.query_scan_bytes =
        5 + sumBytes samplePulls ∧
      (closeScanner (driveScan sampleConfig (Status.endOfFile "eof")
          (samplePulls.length + 1)
          (initialScanState samplePulls [] 5 2))).2.query_scan_rows =
        2 + sumRawRows samplePulls) :=
  c7_counter_accounting sampleConfig (Status.endOfFile "eof") sampleState
    (Chunk.mk [7]) sampleStateAfter rfl sampleConfig (Status.endOfFile "eof")
    samplePulls [] 5 2

/-- Indices produced by `field_index` are valid column positions. -/
theorem field_index_lt (ts : TabletSchema) (nm : String) (i : Nat)
    (h : field_index ts nm = some i) : i < ts.columns.length := by
  rw [field_index, List.findIdx?_eq_some_iff_findIdx_eq] at h
  exact h.1

/-- Every column index the slot-resolution loop collects is a valid column
position. -/
theorem resolveSlots_lt (ts : TabletSchema) :
    ∀ (slots : List SlotDescriptor) (cols : List Nat) (qs : List SlotDescriptor),
      resolveSlots ts slots = Except.ok (cols, qs) →
      ∀ i ∈ cols, i < ts.columns.length := by
  intro slots
  induction slots with
  | nil =>
    intro cols qs h i hi
    rw [resolveSlots] at h
    simp only [Except.ok.injEq, Prod.mk.injEq] at h
    rw [← h.1] at hi
    simp at hi
  | cons slot rest ih =>
    intro cols qs h i hi
    rw [resolveSlots] at h
    by_cases hm : slot.is_materialized
    · rw [if_neg (by simp [hm])] at h
      cases hf : field_index ts slot.col_name with
      | none => rw [hf] at h; simp at h
      | some j =>
        rw [hf] at h
        cases hr : resolveSlots ts rest with
        | error e => rw [hr] at h; simp at h
        | ok pair =>
          rw [hr] at h
          obtain ⟨cols', qs'⟩ := pair
          simp only [Except.ok.injEq, Prod.mk.injEq] at h
          rw [← h.1] at hi
          rcases List.mem_cons.mp hi with hij | hic
          · exact hij ▸ field_index_lt ts slot.col_name j hf
          · exact ih cols' qs' hr i hic
    · rw [if_pos (by simp [hm])] at h
      exact ih cols qs h i hi

/-- Inversion of `init_return_columns`: the scanner columns are the ascending
sort of the resolved slot indices — sorted, non-empty, and all valid. -/
theorem init_return_columns_ok (ts : TabletSchema) (slots : List SlotDescriptor)
    (sc : List Nat) (qs : List SlotDescriptor)
    (h : init_return_columns ts slots = Except.ok (sc, qs)) :
    List.Sorted (· ≤ ·) sc ∧ sc ≠ [] ∧ ∀ i ∈ sc, i < ts.columns.length := by
  rw [init_return_columns] at h
  cases hr : resolveSlots ts slots with
  | error e => rw [hr] at h; simp at h
  | ok pair =>
    rw [hr] at h
    obtain ⟨cols, qs'⟩ := pair
    simp only at h
    by_cases he : (List.insertionSort (· ≤ ·) cols).isEmpty
    · rw [if_pos he] at h; simp at h
    · rw [if_neg he] at h
      simp only [Except.ok.injEq, Prod.mk.injEq] at h
      obtain ⟨hsc, -⟩ := h
      subst hsc
      refine ⟨List.sorted_insertionSort (· ≤ ·) cols, ?_, ?_⟩
      · intro hnil
        rw [hnil] at he
        exact he rfl
      · intro i hi
        exact resolveSlots_lt ts slots cols qs' hr i
          ((List.perm_insertionSort (· ≤ ·) cols).mem_iff.mp hi)

/-- Claim C4: for any requested output slots accepted by initialization over a
well-formed schema (key columns first), the reader column list is sorted
ascending by column id in both aggregation modes; with aggregation skipped it
equals the scanner column list, otherwise it is all key column ids followed by
the requested non-key column ids, every listed key id being smaller than every
listed non-key id. -/
theorem c4_reader_columns (ts : TabletSchema) (slots : List SlotDescriptor)
    (sc : List Nat) (qs : List SlotDescriptor)
    (hwf : schemaKeysFirst ts = true)
    (hres : init_return_columns ts slots = Except.ok (sc, qs)) :
    List.Sorted (· ≤ ·) (init_reader_columns ts true sc) ∧
    List.Sorted (· ≤ ·) (init_reader_columns ts false sc) ∧
    init_reader_columns ts true sc = sc ∧
    init_reader_columns ts false sc =
      List.range ts.num_key_columns ++
        sc.filter (fun i => !(ts.column i).is_key) ∧
    (∀ i ∈ List.range ts.num_key_columns, (ts.column i).is_key = true) ∧
    (∀ j ∈ sc.filter (fun i => !(ts.column i).is_key), (ts.column j).is_key = false) ∧
    (∀ i ∈ List.range ts.num_key_columns,
      ∀ j ∈ sc.filter (fun i => !(ts.column i).is_key), i < j) := by
  obtain ⟨hsort, -, hlt⟩ := init_return_columns_ok ts slots sc qs hres
  rw [schemaKeysFirst, Bool.and_eq_true, decide_eq_true_eq, List.all_eq_true] at hwf
  obtain ⟨hk, hcols⟩ := hwf
  have hkey : ∀ i, i < ts.columns.length →
      (ts.column i).is_key = decide (i < ts.num_key_columns) := by
    intro i hi
    have := hcols i (List.mem_range.mpr hi)
    exact eq_of_beq this
  have hkr : ∀ i ∈ List.range ts.num_key_columns, (ts.column i).is_key = true := by
    intro i hi
    have hik : i < ts.num_key_columns := List.mem_range.mp hi
    rw [hkey i (lt_of_lt_of_le hik hk)]
    simpa using hik
  have hnk : ∀ j ∈ sc.filter (fun i => !(ts.column i).is_key),
      (ts.column j).is_key = false := by
    intro j hj
    have hmem := List.mem_filter.mp hj
    simpa using hmem.2
  have hge : ∀ j ∈ sc.filter (fun i => !(ts.column i).is_key),
      ts.num_key_columns ≤ j := by
    intro j hj
    have hmem := List.mem_filter.mp hj
    have hjl : j < ts.columns.length := hlt j hmem.1
    have := hnk j hj
    rw [hkey j hjl] at this
    simpa using this
  have hcross : ∀ i ∈ List.range ts.num_key_columns,
      ∀ j ∈ sc.filter (fun i => !(ts.column i).is_key), i < j := by
    intro i hi j hj
    exact lt_of_lt_of_le (List.mem_range.mp hi) (hge j hj)
  refine ⟨hsort, ?_, rfl, rfl, hkr, hnk, hcross⟩
  have hfalse : init_reader_columns ts false sc =
      List.range ts.num_key_columns ++
        sc.filter (fun i => !(ts.column i).is_key) := rfl
  rw [hfalse, List.Sorted, List.pairwise_append]
  exact ⟨List.sorted_le_range ts.num_key_columns,
    hsort.sublist (List.filter_sublist sc),
    fun i hi j hj => le_of_lt (hcross i hi j hj)⟩

/-- Concrete schema: two key columns followed by two value columns. -/
def sampleSchema : TabletSchema :=
  { columns := [{ name := "k1", is_key := true }, { name := "k2", is_key := true },
                { name := "v1", is_key := false }, { name := "v2", is_key := false }],
    num_key_columns := 2 }

/-- Concrete slots: two materialized slots (a value column and a key column,
given out of order) and one non-materialized slot. -/
def sampleSlots : List SlotDescriptor :=
  [{ id := 1, col_name := "v1", is_materialized := true },
   { id := 2, col_name := "k1", is_materialized := true },
   { id := 3, col_name := "zz", is_materialized := false }]

/-- Claim C4 at the concrete schema and slots: the scanner columns resolve to
`[0, 2]` and the reader column lists are as the claim describes. -/
theorem c4_reader_columns_witness :
    List.Sorted (· ≤ ·) (init_reader_columns sampleSchema true [0, 2]) ∧
    List.Sorted (· ≤ ·) (init_reader_columns sampleSchema false [0, 2]) ∧
    init_reader_columns sampleSchema true [0, 2] = [0, 2] ∧
    init_reader_columns sampleSchema false [0, 2] =
      List.range sampleSchema.num_key_columns ++
        [0, 2].filter (fun i => !(sampleSchema.column i).is_key) ∧
    (∀ i ∈ List.range sampleSchema.num_key_columns,
      (sampleSchema.column i).is_key = true) ∧
    (∀ j ∈ [0, 2].filter (fun i => !(sampleSchema.column i).is_key),
      (sampleSchema.column j).is_key = false) ∧
    (∀ i ∈ List.range sampleSchema.num_key_columns,
      ∀ j ∈ [0, 2].filter (fun i => !(sampleSchema.column i).is_key), i < j) :=
  c4_reader_columns sampleSchema sampleSlots [0, 2]
    [{ id := 1, col_name := "v1", is_materialized := true },
     { id := 2, col_name := "k1", is_materialized := true }]
    (by decide) rfl

end StarRocks
